import Mathlib

/-!
Verification of the RunPod job-submission client
(`gpu_cli.py`, `local_bridge.py`, `handler.py`).

The development shallowly embeds the client: JSON values are an inductive
type, the network is an explicit trace of responses (one per request the
code would issue), wall-clock readings of `time.time() - start_time` are an
explicit sequence `elapsed : ℕ → ℚ`, and the unbounded `while True` polling
loop is run on explicit fuel (outcome `fuelOut` marks fuel exhaustion, which
has no counterpart in the Python code and never occurs with enough fuel).
`sys.exit(1)` paths are modelled as distinct outcome constructors so that
which error path fired, and what payload it reported, stay observable.
-/

/-- JSON values, restricted to the shapes the client manipulates
(strings, objects, and `null`). Objects are association lists; the
Python `dict` semantics of first-key lookup is `List.lookup`. -/
inductive Json where
  | null : Json
  | str : String → Json
  | obj : List (String × Json) → Json

mutual
/-- Structural equality of JSON values (Python `==` on parsed JSON). -/
def Json.beq : Json → Json → Bool
  | .null, .null => true
  | .str a, .str b => a == b
  | .obj a, .obj b => Json.beqFields a b
  | .null, .str _ => false
  | .null, .obj _ => false
  | .str _, .null => false
  | .str _, .obj _ => false
  | .obj _, .null => false
  | .obj _, .str _ => false

/-- Equality of object field lists, key by key and in order. -/
def Json.beqFields : List (String × Json) → List (String × Json) → Bool
  | [], [] => true
  | (k₁, v₁) :: r₁, (k₂, v₂) :: r₂ => k₁ == k₂ && Json.beq v₁ v₂ && Json.beqFields r₁ r₂
  | [], _ :: _ => false
  | _ :: _, [] => false
end

theorem Json.beq_iff : ∀ a b : Json, Json.beq a b = true ↔ a = b := by
  refine Json.beq.induct (fun a b => Json.beq a b = true ↔ a = b)
    (fun a b => Json.beqFields a b = true ↔ a = b) ?_ ?_ ?_ ?_ ?_ ?_ ?_ ?_ ?_ ?_ ?_ ?_ ?_
  all_goals intros; simp_all [Json.beq, Json.beqFields]

instance : DecidableEq Json := fun a b => decidable_of_iff _ (Json.beq_iff a b)

/-- `d.get(k)` for a JSON value: field lookup on objects, `none` otherwise.
Mirrors `result.get("status")` / the `"id" in result` + `result["id"]`
pattern on object responses. -/
def Json.get : Json → String → Option Json
  | .obj fields, k => fields.lookup k
  | .null, _ => none
  | .str _, _ => none

mutual
/-- Python `repr` of a JSON value (`\x27` is a single quote, `\x7b`/`\x7d`
are braces): used by `str()` for values nested inside a dict. String
escaping is not modelled (no claim exercises it). -/
def Json.pyRepr : Json → String
  | .null => "None"
  | .str s => "\x27" ++ s ++ "\x27"
  | .obj fields => "\x7b" ++ String.intercalate ", " (Json.pyReprFields fields) ++ "\x7d"

/-- Renders the `key: value` entries of a dict, in order. -/
def Json.pyReprFields : List (String × Json) → List String
  | [] => []
  | (k, v) :: rest => ("\x27" ++ k ++ "\x27: " ++ Json.pyRepr v) :: Json.pyReprFields rest
end

/-- Python `str()` of a JSON value, as used by the f-string that builds the
status URL from `job_id = result["id"]`. -/
def Json.pyStr : Json → String
  | .str s => s
  | .null => "None"
  | .obj fields => Json.pyRepr (.obj fields)

/-- One observed environment for a run of the polling loop:
`elapsed i` is the reading `time.time() - start_time` at the top of loop
iteration `i`, and `resp i` is `response.json()` of the `i`-th status
query (only consulted if that query is actually issued). -/
structure PollTrace where
  elapsed : ℕ → ℚ
  resp : ℕ → Json

/-- Outcome of `poll_for_result`.
`completed r` is the `return result` path; `failed r` is the
`status == "FAILED"` path (prints the full payload `r`, then `sys.exit(1)`
— the spec's `JobFailedError`); `timedOut` is the
`elapsed_time > max_wait_time` path (`sys.exit(1)` — the spec's
`TimeoutError`); `fuelOut` is exhaustion of the modelling fuel. -/
inductive PollResult where
  | completed : Json → PollResult
  | failed : Json → PollResult
  | timedOut : PollResult
  | fuelOut : PollResult
deriving DecidableEq

/-- Exit signal of each outcome: the `FAILED` and timeout paths call
`sys.exit(1)`; a completed poll returns normally. -/
def PollResult.exitCode : PollResult → Option ℕ
  | .completed _ => none
  | .failed _ => some 1
  | .timedOut => some 1
  | .fuelOut => none

/-- The Python comparison `result.get("status") == s` for a string literal
`s`: true exactly when the status field is present, is a string, and equals
`s` (comparison of `None` or a non-string value with a `str` is `False`). -/
def statusIs (r : Json) (s : String) : Bool :=
  match r.get "status" with
  | some (.str x) => x == s
  | _ => false

/-- The polling loop body of `gpu_cli.poll_for_result` (lines 99–124) and
`local_bridge.poll_for_result` (lines 132–158); the two differ only in
console output. Arguments: time budget `t` (`max_wait_time`), the observed
trace, remaining fuel, and the absolute index `i` of the next iteration.
Returns (outcome, total number of status queries issued from iteration 0,
total seconds slept by this and later iterations). Each iteration first
checks `elapsed_time > max_wait_time`, then issues the query and branches
on `result.get("status")`: `"COMPLETED"` returns the result, `"FAILED"`
exits, `"IN_QUEUE"`/`"IN_PROGRESS"` sleeps 2 s and repeats, anything else
also sleeps 2 s and repeats. -/
def pollAux (t : ℚ) (tr : PollTrace) : ℕ → ℕ → PollResult × ℕ × ℕ
  | 0, i => (.fuelOut, i, 0)
  | fuel + 1, i =>
    if t < tr.elapsed i then (.timedOut, i, 0)
    else
      let result := tr.resp i
      if statusIs result "COMPLETED" then (.completed result, i + 1, 0)
      else if statusIs result "FAILED" then (.failed result, i + 1, 0)
      else if statusIs result "IN_QUEUE" || statusIs result "IN_PROGRESS" then
        let rest := pollAux t tr fuel (i + 1)
        (rest.1, rest.2.1, rest.2.2 + 2)
      else
        let rest := pollAux t tr fuel (i + 1)
        (rest.1, rest.2.1, rest.2.2 + 2)

/-- `poll_for_result(job_id, max_wait_time)` of both `gpu_cli.py` and
`local_bridge.py`, run on a trace with the given fuel. -/
def poll_for_result (t : ℚ) (tr : PollTrace) (fuel : ℕ) : PollResult × ℕ × ℕ :=
  pollAux t tr fuel 0

/-- A status value the loop's branches recognise as terminal
(`"COMPLETED"` or `"FAILED"`). -/
def isTerminal (r : Json) : Bool :=
  statusIs r "COMPLETED" || statusIs r "FAILED"

/-- The outcome the loop produces on a terminal response: the
`"COMPLETED"` branch is checked first, then `"FAILED"`. -/
def terminalOutcome (r : Json) : PollResult :=
  if statusIs r "COMPLETED" then .completed r else .failed r

theorem pollAux_succ_timeout (t : ℚ) (tr : PollTrace) (fuel i : ℕ)
    (h : t < tr.elapsed i) :
    pollAux t tr (fuel + 1) i = (.timedOut, i, 0) := by
  simp [pollAux, h]

theorem pollAux_succ_completed (t : ℚ) (tr : PollTrace) (fuel i : ℕ)
    (h : ¬ t < tr.elapsed i) (hc : statusIs (tr.resp i) "COMPLETED" = true) :
    pollAux t tr (fuel + 1) i = (.completed (tr.resp i), i + 1, 0) := by
  simp [pollAux, h, hc]

theorem pollAux_succ_failed (t : ℚ) (tr : PollTrace) (fuel i : ℕ)
    (h : ¬ t < tr.elapsed i) (hc : statusIs (tr.resp i) "COMPLETED" = false)
    (hf : statusIs (tr.resp i) "FAILED" = true) :
    pollAux t tr (fuel + 1) i = (.failed (tr.resp i), i + 1, 0) := by
  simp [pollAux, h, hc, hf]

theorem pollAux_succ_step (t : ℚ) (tr : PollTrace) (fuel i : ℕ)
    (h : ¬ t < tr.elapsed i) (hnt : isTerminal (tr.resp i) = false) :
    pollAux t tr (fuel + 1) i =
      ((pollAux t tr fuel (i + 1)).1, (pollAux t tr fuel (i + 1)).2.1,
        (pollAux t tr fuel (i + 1)).2.2 + 2) := by
  simp [isTerminal, Bool.or_eq_false_iff] at hnt
  simp [pollAux, h, hnt.1, hnt.2]

theorem pollAux_queries_ge (t : ℚ) (tr : PollTrace) :
    ∀ fuel i, i ≤ (pollAux t tr fuel i).2.1 := by
  intro fuel
  induction fuel with
  | zero => intro i; simp [pollAux]
  | succ n ih =>
    intro i
    by_cases h : t < tr.elapsed i
    · rw [pollAux_succ_timeout t tr n i h]
    · by_cases hc : statusIs (tr.resp i) "COMPLETED" = true
      · rw [pollAux_succ_completed t tr n i h hc]; simp
      · by_cases hf : statusIs (tr.resp i) "FAILED" = true
        · rw [pollAux_succ_failed t tr n i h (by simpa using hc) hf]; simp
        · rw [pollAux_succ_step t tr n i h
            (by simp [isTerminal, Bool.or_eq_false_iff]; exact ⟨by simpa using hc, by simpa using hf⟩)]
          exact le_trans (Nat.le_succ i) (ih (i + 1))

theorem pollAux_query_elapsed_le (t : ℚ) (tr : PollTrace) :
    ∀ fuel i j, i ≤ j → j < (pollAux t tr fuel i).2.1 → tr.elapsed j ≤ t := by
  intro fuel
  induction fuel with
  | zero => intro i j hij hj; simp [pollAux] at hj; omega
  | succ n ih =>
    intro i j hij hj
    by_cases h : t < tr.elapsed i
    · rw [pollAux_succ_timeout t tr n i h] at hj; simp at hj; omega
    · by_cases hc : statusIs (tr.resp i) "COMPLETED" = true
      · rw [pollAux_succ_completed t tr n i h hc] at hj
        simp at hj
        have : j = i := by omega
        subst this; exact not_lt.mp h
      · by_cases hf : statusIs (tr.resp i) "FAILED" = true
        · rw [pollAux_succ_failed t tr n i h (by simpa using hc) hf] at hj
          simp at hj
          have : j = i := by omega
          subst this; exact not_lt.mp h
        · rw [pollAux_succ_step t tr n i h
            (by simp [isTerminal, Bool.or_eq_false_iff]; exact ⟨by simpa using hc, by simpa using hf⟩)] at hj
          rcases eq_or_lt_of_le hij with rfl | hlt
          · exact not_lt.mp h
          · exact ih (i + 1) j hlt hj

theorem pollAux_timedOut_gt (t : ℚ) (tr : PollTrace) :
    ∀ fuel i, (pollAux t tr fuel i).1 = .timedOut →
      t < tr.elapsed ((pollAux t tr fuel i).2.1) := by
  intro fuel
  induction fuel with
  | zero => intro i hout; simp [pollAux] at hout
  | succ n ih =>
    intro i hout
    by_cases h : t < tr.elapsed i
    · rw [pollAux_succ_timeout t tr n i h]; exact h
    · by_cases hc : statusIs (tr.resp i) "COMPLETED" = true
      · rw [pollAux_succ_completed t tr n i h hc] at hout; simp at hout
      · by_cases hf : statusIs (tr.resp i) "FAILED" = true
        · rw [pollAux_succ_failed t tr n i h (by simpa using hc) hf] at hout
          simp at hout
        · rw [pollAux_succ_step t tr n i h
            (by simp [isTerminal, Bool.or_eq_false_iff]; exact ⟨by simpa using hc, by simpa using hf⟩)] at hout ⊢
          exact ih (i + 1) hout

theorem pollAux_first_terminal (t : ℚ) (tr : PollTrace) :
    ∀ fuel i k, i ≤ k → k < i + fuel →
      (∀ j, i ≤ j → j ≤ k → tr.elapsed j ≤ t) →
      (∀ j, i ≤ j → j < k → isTerminal (tr.resp j) = false) →
      isTerminal (tr.resp k) = true →
      pollAux t tr fuel i = (terminalOutcome (tr.resp k), k + 1, 2 * (k - i)) := by
  intro fuel
  induction fuel with
  | zero => intro i k hik hk _ _ _; omega
  | succ n ih =>
    intro i k hik hk helapsed hpre hterm
    have h : ¬ t < tr.elapsed i := not_lt.mpr (helapsed i le_rfl hik)
    rcases eq_or_lt_of_le hik with rfl | hlt
    · by_cases hc : statusIs (tr.resp i) "COMPLETED" = true
      · rw [pollAux_succ_completed t tr n i h hc, terminalOutcome, if_pos hc]
        simp
      · have hf : statusIs (tr.resp i) "FAILED" = true := by
          rcases Bool.or_eq_true_iff.mp hterm with h1 | h1
          · exact absurd h1 hc
          · exact h1
        rw [pollAux_succ_failed t tr n i h (by simpa using hc) hf,
          terminalOutcome, if_neg (by simpa using hc)]
        simp
    · rw [pollAux_succ_step t tr n i h (hpre i le_rfl hlt),
        ih (i + 1) k hlt (by omega)
          (fun j hj hjk => helapsed j (by omega) hjk)
          (fun j hj hjk => hpre j (by omega) hjk) hterm]
      have : 2 * (k - (i + 1)) + 2 = 2 * (k - i) := by omega
      simp [this]

/-! ## Submission (`send_to_gpu` / `send_request`) and the CLI `status` command -/

/-- The two configuration globals of `local_bridge.py`
(`RUNPOD_API_KEY`, `RUNPOD_ENDPOINT_ID`), passed explicitly. -/
structure RunpodConfig where
  apiKey : String
  endpointId : String

/-- An HTTP request the client issues: either the submission `POST` (with
headers and JSON body) or a status-poll `GET` (with headers). -/
inductive ApiRequest where
  | post : String → List (String × String) → Json → ApiRequest
  | get : String → List (String × String) → ApiRequest
deriving DecidableEq

/-- Whether a request is a `POST` (`requests.post`). -/
def ApiRequest.isPost : ApiRequest → Bool
  | .post _ _ _ => true
  | .get _ _ => false

/-- `f"https://api.runpod.ai/v2/{RUNPOD_ENDPOINT_ID}/run"`. -/
def run_url (endpointId : String) : String :=
  "https://api.runpod.ai/v2/" ++ endpointId ++ "/run"

/-- `f"https://api.runpod.ai/v2/{RUNPOD_ENDPOINT_ID}/status/{job_id}"`,
where `job_id` is the raw JSON value `result["id"]` rendered by the
f-string. -/
def status_url (endpointId : String) (jobId : Json) : String :=
  "https://api.runpod.ai/v2/" ++ endpointId ++ "/status/" ++ jobId.pyStr

/-- The submission `POST`: JSON body `payload = {"input": {"prompt": prompt}}`
and headers `Content-Type: application/json`,
`Authorization: Bearer {RUNPOD_API_KEY}`. -/
def runRequest (cfg : RunpodConfig) (prompt : String) : ApiRequest :=
  .post (run_url cfg.endpointId)
    [("Content-Type", "application/json"),
     ("Authorization", "Bearer " ++ cfg.apiKey)]
    (Json.obj [("input", Json.obj [("prompt", Json.str prompt)])])

/-- One status-poll `GET`, with the `Authorization` header only. -/
def statusRequest (cfg : RunpodConfig) (jobId : Json) : ApiRequest :=
  .get (status_url cfg.endpointId jobId) [("Authorization", "Bearer " ++ cfg.apiKey)]

/-- The observed environment of one submission: the `POST`'s outcome
(`.error` for a `requests` exception / non-2xx raised by
`raise_for_status`, `.ok body` for a parsed 2xx body) and, if polling
happens, the poll trace. -/
structure SubmitTrace where
  runResp : Except Unit Json
  poll : PollTrace

/-- Result of a submission as surfaced to the CLI. `value r` is a normal
return; `exited 1` is any `sys.exit(1)` path (submission error, job
failure, timeout); `fuelOut` is exhaustion of the modelling fuel. -/
inductive SubmitResult where
  | value : Json → SubmitResult
  | exited : ℕ → SubmitResult
  | fuelOut : SubmitResult
deriving DecidableEq

/-- `gpu_cli.send_to_gpu(prompt, max_wait_time)` (lines 41–83): issue the
`POST`; on a transport error print diagnostics and `sys.exit(1)`; on a 2xx
body with an `"id"` field poll for the result with that job id; otherwise
return the body itself. Returns the outcome together with the full list of
HTTP requests issued (the `POST`, then one identical status `GET` per poll
iteration that queried). -/
def send_to_gpu (cfg : RunpodConfig) (tr : SubmitTrace) (fuel : ℕ)
    (prompt : String) (max_wait_time : ℚ) : SubmitResult × List ApiRequest :=
  match tr.runResp with
  | .error _ => (.exited 1, [runRequest cfg prompt])
  | .ok result =>
    match result.get "id" with
    | some job_id =>
      let r := poll_for_result max_wait_time tr.poll fuel
      ((match r.1 with
        | .completed res => .value res
        | .failed _ => .exited 1
        | .timedOut => .exited 1
        | .fuelOut => .fuelOut),
        runRequest cfg prompt :: List.replicate r.2.1 (statusRequest cfg job_id))
    | none => (.value result, [runRequest cfg prompt])

/-- `local_bridge.send_request(prompt, max_wait_time)` (lines 32–110):
first the inline placeholder checks on the two credentials (each exits with
code 1 before any network activity), then the same submission logic as
`send_to_gpu`. -/
def send_request (cfg : RunpodConfig) (tr : SubmitTrace) (fuel : ℕ)
    (prompt : String) (max_wait_time : ℚ) : SubmitResult × List ApiRequest :=
  if cfg.apiKey = "YOUR_API_KEY_HERE" then (.exited 1, [])
  else if cfg.endpointId = "YOUR_ENDPOINT_ID_HERE" then (.exited 1, [])
  else send_to_gpu cfg tr fuel prompt max_wait_time

/-- Outcome of a CLI command that may `sys.exit`. -/
inductive CmdOutcome where
  | ok : CmdOutcome
  | exited : ℕ → CmdOutcome
deriving DecidableEq

/-- `gpu_cli.validate_config()` (lines 28–38): `sys.exit(1)` if the API key
is the placeholder `"YOUR_API_KEY_HERE"`, then `sys.exit(1)` if the
endpoint id is the placeholder `"YOUR_ENDPOINT_ID_HERE"`. -/
def validate_config (cfg : RunpodConfig) : CmdOutcome :=
  if cfg.apiKey = "YOUR_API_KEY_HERE" then .exited 1
  else if cfg.endpointId = "YOUR_ENDPOINT_ID_HERE" then .exited 1
  else .ok

/-- The `status` CLI command (`gpu_cli.py` lines 176–189): runs
`validate_config()` and then only prints the endpoint id and the masked
key; it issues no HTTP request, so its request list is empty. -/
def statusCommand (cfg : RunpodConfig) : CmdOutcome × List ApiRequest :=
  (validate_config cfg, [])

/-! ## The remote handler (`handler.py`) -/

/-- Python exceptions the handler can raise. -/
inductive PyError where
  | keyError : String → PyError
  | typeError : PyError
  | attributeError : PyError
deriving DecidableEq

/-- Python `job["input"]`-style subscription: a `KeyError` on an object
without the key, a `TypeError` on a non-dict value. -/
def dictSubscript (j : Json) (k : String) : Except PyError Json :=
  match j with
  | .obj fields =>
    match fields.lookup k with
    | some v => .ok v
    | none => .error (.keyError k)
  | _ => .error .typeError

/-- Python `d.get(k, default)`: the value when the key is present, the
default otherwise; an `AttributeError` on a non-dict value. -/
def dictGet (j : Json) (k : String) (dflt : Json) : Except PyError Json :=
  match j with
  | .obj fields => .ok ((fields.lookup k).getD dflt)
  | _ => .error .attributeError

/-- `handler.handler(job)` (`handler.py` lines 3–23): take
`job_input = job["input"]` (unguarded subscript), then
`prompt = job_input.get("prompt", "No prompt provided")`, and return the
f-string `f"GPU Received your message: {prompt}"`. -/
def handler (job : Json) : Except PyError String :=
  match dictSubscript job "input" with
  | .error e => .error e
  | .ok job_input =>
    match dictGet job_input "prompt" (Json.str "No prompt provided") with
    | .error e => .error e
    | .ok prompt => .ok ("GPU Received your message: " ++ prompt.pyStr)

/-! ## Claim theorems -/

theorem statusIs_unique {r : Json} {a b : String}
    (ha : statusIs r a = true) (hb : statusIs r b = true) : a = b := by
  unfold statusIs at ha hb
  rcases hg : r.get "status" with _ | v <;> rw [hg] at ha hb
  · simp at ha
  · rcases v with _ | x | fs
    · simp at ha
    · simp at ha hb; rw [← ha, ← hb]
    · simp at ha

/-- A trace on which, with budget `t = 4`, the elapsed reading at the top
of the first iteration is exactly `4`: the strict check `4 > 4` fails, so
a query is still issued. -/
def exactBudgetTrace : PollTrace where
  elapsed := fun i => match i with | 0 => 4 | _ => 6
  resp := fun _ => .obj [("status", .str "IN_PROGRESS")]

/-- C1, counterexample to the claim as stated: with `max_wait_time = 4`
the loop issues exactly one status query, and that query is issued at
elapsed time exactly `4` — i.e. after `t` seconds have already elapsed —
because the code's timeout check `elapsed_time > max_wait_time` is strict.
(It then times out on the next iteration.) -/
theorem poll_query_at_exact_budget :
    (poll_for_result 4 exactBudgetTrace 2).2.1 = 1 ∧
    exactBudgetTrace.elapsed 0 = 4 ∧
    ¬ exactBudgetTrace.elapsed 0 < 4 ∧
    (poll_for_result 4 exactBudgetTrace 2).1 = .timedOut := by
  refine ⟨by decide, by decide, by decide, by decide⟩

/-- C1 (amended): every status query `poll_for_result` issues is issued
with elapsed time at most `t` (a query may still happen when the elapsed
reading equals `t` exactly, since the code's check is strict), and whenever
it signals the timeout (`sys.exit(1)` — the spec's `TimeoutError`), the
elapsed reading at the stopping iteration strictly exceeds `t` and no
further status query is issued (the query count stops at that iteration's
index). -/
theorem poll_query_budget_strict (t : ℚ) (tr : PollTrace) (fuel : ℕ) :
    (∀ j, j < (poll_for_result t tr fuel).2.1 → tr.elapsed j ≤ t) ∧
    ((poll_for_result t tr fuel).1 = .timedOut →
      t < tr.elapsed ((poll_for_result t tr fuel).2.1)) :=
  ⟨fun j hj => pollAux_query_elapsed_le t tr fuel 0 j (Nat.zero_le j) hj,
   pollAux_timedOut_gt t tr fuel 0⟩

/-- Witness for the amended C1, at the boundary trace: the only query
(index 0) is within budget, and the timeout fires at a reading above 4. -/
theorem poll_query_budget_strict_witness :
    exactBudgetTrace.elapsed 0 ≤ 4 ∧
    4 < exactBudgetTrace.elapsed ((poll_for_result 4 exactBudgetTrace 2).2.1) :=
  ⟨(poll_query_budget_strict 4 exactBudgetTrace 2).1 0 (by decide),
   (poll_query_budget_strict 4 exactBudgetTrace 2).2 (by decide)⟩

/-- C2: if the `k`-th status response is the first terminal one
(`COMPLETED` or `FAILED`), every reading up to it is within budget, and
there is fuel to reach it, then the loop issues exactly `k + 1` queries —
none after the terminal response — and returns that very response on
`COMPLETED`, or signals failure carrying it on `FAILED`. -/
theorem poll_stops_at_first_terminal (t : ℚ) (tr : PollTrace) (fuel k : ℕ)
    (hfuel : k < fuel)
    (helapsed : ∀ j, j ≤ k → tr.elapsed j ≤ t)
    (hpre : ∀ j, j < k → isTerminal (tr.resp j) = false)
    (hterm : isTerminal (tr.resp k) = true) :
    (poll_for_result t tr fuel).2.1 = k + 1 ∧
    (statusIs (tr.resp k) "COMPLETED" = true →
      (poll_for_result t tr fuel).1 = .completed (tr.resp k)) ∧
    (statusIs (tr.resp k) "FAILED" = true →
      (poll_for_result t tr fuel).1 = .failed (tr.resp k)) := by
  have h := pollAux_first_terminal t tr fuel 0 k (Nat.zero_le k) (by omega)
    (fun j _ hjk => helapsed j hjk) (fun j _ hjk => hpre j hjk) hterm
  rw [poll_for_result, h]
  refine ⟨rfl, fun hc => ?_, fun hf => ?_⟩
  · simp [terminalOutcome, hc]
  · have hc : statusIs (tr.resp k) "COMPLETED" = false := by
      cases hcc : statusIs (tr.resp k) "COMPLETED"
      · rfl
      · exact absurd (statusIs_unique hcc hf) (by decide)
    simp [terminalOutcome, hc]

/-- Scenario 1 of the spec: first response `IN_QUEUE`, second
`COMPLETED` with output `"hi"`, clock readings 0 and 2. -/
def scenario1Trace : PollTrace where
  elapsed := fun i => match i with | 0 => 0 | 1 => 2 | _ => 50
  resp := fun i =>
    if i = 0 then .obj [("status", .str "IN_QUEUE")]
    else .obj [("status", .str "COMPLETED"), ("output", .str "hi")]

theorem poll_stops_at_first_terminal_witness :
    (poll_for_result 60 scenario1Trace 3).2.1 = 2 ∧
    (poll_for_result 60 scenario1Trace 3).1 = .completed (scenario1Trace.resp 1) := by
  have h := poll_stops_at_first_terminal 60 scenario1Trace 3 1 (by decide)
    (fun j hj => by interval_cases j <;> decide)
    (fun j hj => by interval_cases j <;> decide)
    (by decide)
  exact ⟨h.1, h.2.1 (by decide)⟩

/-- C5: on a response whose status is none of the four recognised strings
(including a missing or non-string status field), the iteration neither
returns nor signals anything: the run is exactly the run resumed at the
next iteration, with one more status query issued before it and 2 more
seconds of `time.sleep` — i.e. the response is treated as non-terminal. -/
theorem poll_unrecognized_nonterminal (t : ℚ) (tr : PollTrace) (fuel i : ℕ)
    (helapsed : tr.elapsed i ≤ t)
    (hc : statusIs (tr.resp i) "COMPLETED" = false)
    (hf : statusIs (tr.resp i) "FAILED" = false)
    (hq : statusIs (tr.resp i) "IN_QUEUE" = false)
    (hp : statusIs (tr.resp i) "IN_PROGRESS" = false) :
    pollAux t tr (fuel + 1) i =
      ((pollAux t tr fuel (i + 1)).1, (pollAux t tr fuel (i + 1)).2.1,
        (pollAux t tr fuel (i + 1)).2.2 + 2) :=
  pollAux_succ_step t tr fuel i (not_lt.mpr helapsed)
    (by simp [isTerminal, Bool.or_eq_false_iff]; exact ⟨hc, hf⟩)

/-- A trace whose first response carries an unseen status string. -/
def weirdStatusTrace : PollTrace where
  elapsed := fun _ => 0
  resp := fun _ => .obj [("status", .str "ALMOST_DONE")]

theorem poll_unrecognized_nonterminal_witness :
    pollAux 60 weirdStatusTrace 1 0 =
      ((pollAux 60 weirdStatusTrace 0 1).1, (pollAux 60 weirdStatusTrace 0 1).2.1,
        (pollAux 60 weirdStatusTrace 0 1).2.2 + 2) :=
  poll_unrecognized_nonterminal 60 weirdStatusTrace 0 0
    (by decide) (by decide) (by decide) (by decide) (by decide)

/-- C7: if the `k`-th response is the first terminal one and its status is
`"FAILED"`, the loop stops there in the `FAILED` branch, which prints the
full result payload and calls `sys.exit(1)`: the outcome carries the whole
response and the exit signal is the non-zero code 1, not a returned
result. -/
theorem poll_failed_carries_payload (t : ℚ) (tr : PollTrace) (fuel k : ℕ)
    (hfuel : k < fuel)
    (helapsed : ∀ j, j ≤ k → tr.elapsed j ≤ t)
    (hpre : ∀ j, j < k → isTerminal (tr.resp j) = false)
    (hfail : statusIs (tr.resp k) "FAILED" = true) :
    (poll_for_result t tr fuel).1 = .failed (tr.resp k) ∧
    ((poll_for_result t tr fuel).1).exitCode = some 1 := by
  have hterm : isTerminal (tr.resp k) = true := by
    simp [isTerminal, hfail]
  have hc : statusIs (tr.resp k) "COMPLETED" = false := by
    cases hcc : statusIs (tr.resp k) "COMPLETED"
    · rfl
    · exact absurd (statusIs_unique hcc hfail) (by decide)
  have h := pollAux_first_terminal t tr fuel 0 k (Nat.zero_le k) (by omega)
    (fun j _ hjk => helapsed j hjk) (fun j _ hjk => hpre j hjk) hterm
  rw [poll_for_result, h]
  simp [terminalOutcome, hc, PollResult.exitCode]

/-- Scenario 4 of the spec: the status endpoint reports
`{"status":"FAILED","error":"oom"}`. -/
def failedOomTrace : PollTrace where
  elapsed := fun _ => 0
  resp := fun _ => .obj [("status", .str "FAILED"), ("error", .str "oom")]

theorem poll_failed_carries_payload_witness :
    (poll_for_result 60 failedOomTrace 1).1
      = .failed (.obj [("status", .str "FAILED"), ("error", .str "oom")]) ∧
    ((poll_for_result 60 failedOomTrace 1).1).exitCode = some 1 :=
  poll_failed_carries_payload 60 failedOomTrace 1 0 (by decide)
    (fun j hj => by interval_cases j <;> decide)
    (fun j hj => by omega)
    (by decide)

/-- C6: with every response `{"status":"IN_PROGRESS"}`, `maxWaitSeconds = 4`
and the fixed 2-second sleep between polls (clock advance between
consecutive readings at least the 2-second sleep and at most 3 seconds
with per-iteration overhead), the loop signals the timeout after 2 or 3
status queries, at an elapsed reading strictly above 4 and at most 7
seconds. -/
theorem poll_timeout_scenario3 (tr : PollTrace) (fuel : ℕ) (hfuel : 4 ≤ fuel)
    (h0 : tr.elapsed 0 = 0)
    (hlo : ∀ i, tr.elapsed i + 2 ≤ tr.elapsed (i + 1))
    (hhi : ∀ i, tr.elapsed (i + 1) ≤ tr.elapsed i + 3)
    (hresp : ∀ i, tr.resp i = .obj [("status", .str "IN_PROGRESS")]) :
    (poll_for_result 4 tr fuel).1 = .timedOut ∧
    ((poll_for_result 4 tr fuel).2.1 = 2 ∨ (poll_for_result 4 tr fuel).2.1 = 3) ∧
    4 < tr.elapsed ((poll_for_result 4 tr fuel).2.1) ∧
    tr.elapsed ((poll_for_result 4 tr fuel).2.1) ≤ 7 := by
  have hnt : ∀ i, isTerminal (tr.resp i) = false := by
    intro i; rw [hresp i]; decide
  have he1lo : (2 : ℚ) ≤ tr.elapsed 1 := by have := hlo 0; rw [h0] at this; linarith
  have he1hi : tr.elapsed 1 ≤ 3 := by have := hhi 0; rw [h0] at this; linarith
  have he2lo : (4 : ℚ) ≤ tr.elapsed 2 := by have := hlo 1; linarith
  have he2hi : tr.elapsed 2 ≤ 6 := by have := hhi 1; linarith
  obtain ⟨m, rfl⟩ := Nat.exists_eq_add_of_le hfuel
  rw [poll_for_result]
  by_cases hcase : (4 : ℚ) < tr.elapsed 2
  · have hrun : pollAux 4 tr (4 + m) 0 = (.timedOut, 2, 4) := by
      rw [show 4 + m = (3 + m) + 1 from by omega,
        pollAux_succ_step 4 tr (3 + m) 0 (by rw [h0]; norm_num) (hnt 0),
        show 3 + m = (2 + m) + 1 from by omega,
        pollAux_succ_step 4 tr (2 + m) 1 (not_lt.mpr (by linarith)) (hnt 1),
        show 2 + m = (1 + m) + 1 from by omega,
        pollAux_succ_timeout 4 tr (1 + m) 2 hcase]
    rw [hrun]
    exact ⟨rfl, Or.inl rfl, hcase, by simpa using he2hi.trans (by norm_num)⟩
  · have he2 : tr.elapsed 2 ≤ 4 := not_lt.mp hcase
    have he3lo : (4 : ℚ) < tr.elapsed 3 := by have := hlo 2; linarith
    have he3hi : tr.elapsed 3 ≤ 7 := by have := hhi 2; linarith
    have hrun : pollAux 4 tr (4 + m) 0 = (.timedOut, 3, 6) := by
      rw [show 4 + m = (3 + m) + 1 from by omega,
        pollAux_succ_step 4 tr (3 + m) 0 (by rw [h0]; norm_num) (hnt 0),
        show 3 + m = (2 + m) + 1 from by omega,
        pollAux_succ_step 4 tr (2 + m) 1 (not_lt.mpr (by linarith)) (hnt 1),
        show 2 + m = (1 + m) + 1 from by omega,
        pollAux_succ_step 4 tr (1 + m) 2 hcase (hnt 2),
        show 1 + m = m + 1 from by omega,
        pollAux_succ_timeout 4 tr m 3 he3lo]
    rw [hrun]
    exact ⟨rfl, Or.inr rfl, he3lo, he3hi⟩

/-- An idealised clock for scenario 3: readings advance by exactly
2.5 seconds per iteration (2 s sleep plus 0.5 s of query latency). -/
def scenario3Trace : PollTrace where
  elapsed := fun i => (5 : ℚ) / 2 * i
  resp := fun _ => .obj [("status", .str "IN_PROGRESS")]

theorem poll_timeout_scenario3_witness :
    (poll_for_result 4 scenario3Trace 4).1 = .timedOut ∧
    ((poll_for_result 4 scenario3Trace 4).2.1 = 2 ∨
      (poll_for_result 4 scenario3Trace 4).2.1 = 3) ∧
    4 < scenario3Trace.elapsed ((poll_for_result 4 scenario3Trace 4).2.1) ∧
    scenario3Trace.elapsed ((poll_for_result 4 scenario3Trace 4).2.1) ≤ 7 :=
  poll_timeout_scenario3 scenario3Trace 4 (by norm_num)
    (by simp [scenario3Trace])
    (fun i => by simp [scenario3Trace]; linarith)
    (fun i => by simp [scenario3Trace]; linarith)
    (fun i => rfl)

theorem filter_isPost_replicate (n : ℕ) (u : String) (h : List (String × String)) :
    (List.replicate n (ApiRequest.get u h)).filter ApiRequest.isPost = [] := by
  induction n with
  | zero => rfl
  | succ m ih => simp [List.replicate_succ, List.filter, ApiRequest.isPost, ih]

/-- C3: a submission issues exactly one `POST` — to the run endpoint, with
JSON body `{"input":{"prompt":P}}` and headers
`Content-Type: application/json` and `Authorization: Bearer <credential>` —
whatever the response and however polling then goes. This holds for
`gpu_cli.send_to_gpu` unconditionally, and for `local_bridge.send_request`
whenever its inline placeholder checks pass (with a placeholder credential
it exits before any network call). -/
theorem submit_single_post (cfg : RunpodConfig) (tr : SubmitTrace) (fuel : ℕ)
    (prompt : String) (w : ℚ) :
    ((send_to_gpu cfg tr fuel prompt w).2.filter ApiRequest.isPost
      = [runRequest cfg prompt]) ∧
    (cfg.apiKey ≠ "YOUR_API_KEY_HERE" → cfg.endpointId ≠ "YOUR_ENDPOINT_ID_HERE" →
      (send_request cfg tr fuel prompt w).2.filter ApiRequest.isPost
        = [runRequest cfg prompt]) ∧
    runRequest cfg prompt
      = .post (run_url cfg.endpointId)
          [("Content-Type", "application/json"),
           ("Authorization", "Bearer " ++ cfg.apiKey)]
          (Json.obj [("input", Json.obj [("prompt", Json.str prompt)])]) := by
  have hone : (send_to_gpu cfg tr fuel prompt w).2.filter ApiRequest.isPost
      = [runRequest cfg prompt] := by
    rcases hresp : tr.runResp with e | result
    · simp [send_to_gpu, hresp, List.filter, runRequest, ApiRequest.isPost]
    · rcases hid : result.get "id" with _ | v
      · simp [send_to_gpu, hresp, hid, List.filter, runRequest, ApiRequest.isPost]
      · simp [send_to_gpu, hresp, hid, List.filter, runRequest, ApiRequest.isPost,
          statusRequest, filter_isPost_replicate]
  refine ⟨hone, fun hk he => ?_, rfl⟩
  rw [send_request, if_neg hk, if_neg he]
  exact hone

/-- A fixed poll trace used by the submission witnesses: the first status
response is already terminal. -/
def witnessPollTrace : PollTrace where
  elapsed := fun _ => 0
  resp := fun _ => .obj [("status", .str "COMPLETED"), ("output", .str "hi")]

theorem submit_single_post_witness :
    ((send_to_gpu ⟨"key123", "ep456"⟩ ⟨.ok (.obj [("id", .str "abc")]), witnessPollTrace⟩
        2 "hello" 60).2.filter ApiRequest.isPost
      = [runRequest ⟨"key123", "ep456"⟩ "hello"]) ∧
    ((send_request ⟨"key123", "ep456"⟩ ⟨.ok (.obj [("id", .str "abc")]), witnessPollTrace⟩
        2 "hello" 60).2.filter ApiRequest.isPost
      = [runRequest ⟨"key123", "ep456"⟩ "hello"]) :=
  ⟨(submit_single_post ⟨"key123", "ep456"⟩ ⟨.ok (.obj [("id", .str "abc")]), witnessPollTrace⟩
      2 "hello" 60).1,
   (submit_single_post ⟨"key123", "ep456"⟩ ⟨.ok (.obj [("id", .str "abc")]), witnessPollTrace⟩
      2 "hello" 60).2.1 (by decide) (by decide)⟩

/-- C4: if the run-endpoint body is an object with no `"id"` key, the
submission returns that body verbatim and its request list is just the one
`POST` (zero status queries); if the body has an `"id"` key with value `v`,
every subsequent request is a status `GET` for job identifier `v` (one per
poll-loop query). The last conjunct: under valid (non-placeholder)
credentials `local_bridge.send_request` is exactly `gpu_cli.send_to_gpu`,
so both spellings of Submit behave alike. -/
theorem submit_sync_or_async (cfg : RunpodConfig) (tr : SubmitTrace) (fuel : ℕ)
    (prompt : String) (w : ℚ) :
    (∀ fields, tr.runResp = .ok (.obj fields) →
      (Json.obj fields).get "id" = none →
      send_to_gpu cfg tr fuel prompt w
        = (.value (.obj fields), [runRequest cfg prompt])) ∧
    (∀ fields v, tr.runResp = .ok (.obj fields) →
      (Json.obj fields).get "id" = some v →
      (send_to_gpu cfg tr fuel prompt w).2
        = runRequest cfg prompt
          :: List.replicate (poll_for_result w tr.poll fuel).2.1
              (statusRequest cfg v)) ∧
    (cfg.apiKey ≠ "YOUR_API_KEY_HERE" → cfg.endpointId ≠ "YOUR_ENDPOINT_ID_HERE" →
      send_request cfg tr fuel prompt w = send_to_gpu cfg tr fuel prompt w) := by
  refine ⟨fun fields hresp hid => ?_, fun fields v hresp hid => ?_, fun hk he => ?_⟩
  · simp [send_to_gpu, hresp, hid]
  · simp [send_to_gpu, hresp, hid]
  · rw [send_request, if_neg hk, if_neg he]

theorem submit_sync_or_async_witness :
    (send_to_gpu ⟨"key123", "ep456"⟩
        ⟨.ok (.obj [("status", .str "COMPLETED"), ("output", .str "direct")]),
          witnessPollTrace⟩ 2 "hello" 60
      = (.value (.obj [("status", .str "COMPLETED"), ("output", .str "direct")]),
          [runRequest ⟨"key123", "ep456"⟩ "hello"])) ∧
    ((send_to_gpu ⟨"key123", "ep456"⟩ ⟨.ok (.obj [("id", .str "abc")]), witnessPollTrace⟩
        2 "hello" 60).2
      = runRequest ⟨"key123", "ep456"⟩ "hello"
        :: List.replicate (poll_for_result 60 witnessPollTrace 2).2.1
            (statusRequest ⟨"key123", "ep456"⟩ (.str "abc"))) ∧
    (send_request ⟨"key123", "ep456"⟩ ⟨.ok (.obj [("id", .str "abc")]), witnessPollTrace⟩
        2 "hello" 60
      = send_to_gpu ⟨"key123", "ep456"⟩ ⟨.ok (.obj [("id", .str "abc")]), witnessPollTrace⟩
        2 "hello" 60) :=
  ⟨(submit_sync_or_async ⟨"key123", "ep456"⟩
      ⟨.ok (.obj [("status", .str "COMPLETED"), ("output", .str "direct")]),
        witnessPollTrace⟩ 2 "hello" 60).1
      [("status", .str "COMPLETED"), ("output", .str "direct")] rfl (by decide),
   (submit_sync_or_async ⟨"key123", "ep456"⟩
      ⟨.ok (.obj [("id", .str "abc")]), witnessPollTrace⟩ 2 "hello" 60).2.1
      [("id", .str "abc")] (.str "abc") rfl (by decide),
   (submit_sync_or_async ⟨"key123", "ep456"⟩
      ⟨.ok (.obj [("id", .str "abc")]), witnessPollTrace⟩ 2 "hello" 60).2.2
      (by decide) (by decide)⟩

/-- C9: the `status` command issues no HTTP request at all, and (via
`validate_config`) exits with the non-zero code 1 when the API key is the
placeholder `"YOUR_API_KEY_HERE"` or the endpoint id is the placeholder
`"YOUR_ENDPOINT_ID_HERE"`. -/
theorem status_validates_without_network (cfg : RunpodConfig) :
    (statusCommand cfg).2 = [] ∧
    (cfg.apiKey = "YOUR_API_KEY_HERE" → (statusCommand cfg).1 = .exited 1) ∧
    (cfg.endpointId = "YOUR_ENDPOINT_ID_HERE" → (statusCommand cfg).1 = .exited 1) := by
  refine ⟨rfl, fun hk => ?_, fun he => ?_⟩
  · simp [statusCommand, validate_config, hk]
  · by_cases hk : cfg.apiKey = "YOUR_API_KEY_HERE" <;>
      simp [statusCommand, validate_config, hk, he]

theorem status_validates_without_network_witness :
    (statusCommand ⟨"YOUR_API_KEY_HERE", "YOUR_ENDPOINT_ID_HERE"⟩).2 = [] ∧
    (statusCommand ⟨"YOUR_API_KEY_HERE", "YOUR_ENDPOINT_ID_HERE"⟩).1 = .exited 1 :=
  ⟨(status_validates_without_network ⟨"YOUR_API_KEY_HERE", "YOUR_ENDPOINT_ID_HERE"⟩).1,
   (status_validates_without_network ⟨"YOUR_API_KEY_HERE", "YOUR_ENDPOINT_ID_HERE"⟩).2.1 rfl⟩

/-- C8, counterexample to the claim as stated: on a job whose prompt is
`"hi"`, the handler returns the string
`"GPU Received your message: hi"`, which is not the prompt `"hi"` itself —
the handler prepends a fixed greeting rather than echoing the prompt
verbatim. -/
theorem handler_not_identity :
    handler (.obj [("input", .obj [("prompt", .str "hi")])])
      = .ok "GPU Received your message: hi" ∧
    "GPU Received your message: hi" ≠ "hi" := by
  constructor
  · simp [handler, dictSubscript, dictGet, Json.pyStr, List.lookup]
  · decide

/-- C8 (amended): for every job whose `"input"` object maps `"prompt"` to a
string `P`, the handler returns `"GPU Received your message: " ++ P` —
the received prompt prefixed by a fixed greeting, not `P` itself. -/
theorem handler_echo_with_greeting (jfields ifields : List (String × Json)) (P : String)
    (hin : List.lookup "input" jfields = some (.obj ifields))
    (hp : List.lookup "prompt" ifields = some (.str P)) :
    handler (.obj jfields) = .ok ("GPU Received your message: " ++ P) := by
  simp [handler, dictSubscript, dictGet, hin, hp, Json.pyStr]

theorem handler_echo_with_greeting_witness :
    handler (.obj [("input", .obj [("prompt", .str "yo")])])
      = .ok ("GPU Received your message: " ++ "yo") :=
  handler_echo_with_greeting [("input", .obj [("prompt", .str "yo")])]
    [("prompt", .str "yo")] "yo" (by decide) (by decide)

/-- C10: a job whose `"input"` object has no `"prompt"` key does not make
the handler fail — `job_input.get("prompt", "No prompt provided")`
substitutes the default and the handler returns normally — whereas a job
object with no `"input"` key at all makes the unguarded subscript
`job["input"]` raise a `KeyError`. -/
theorem handler_default_and_keyerror (jfields ifields : List (String × Json)) :
    (List.lookup "input" jfields = some (.obj ifields) →
      List.lookup "prompt" ifields = none →
      handler (.obj jfields) = .ok "GPU Received your message: No prompt provided") ∧
    (List.lookup "input" jfields = none →
      handler (.obj jfields) = .error (.keyError "input")) := by
  constructor
  · intro hin hp
    simp [handler, dictSubscript, dictGet, hin, hp, Json.pyStr]
  · intro hin
    simp [handler, dictSubscript, hin]

theorem handler_default_and_keyerror_witness :
    handler (.obj [("input", .obj [("other", .null)])])
      = .ok "GPU Received your message: No prompt provided" ∧
    handler (.obj [("different", .null)]) = .error (.keyError "input") :=
  ⟨(handler_default_and_keyerror [("input", .obj [("other", .null)])]
      [("other", .null)]).1 (by decide) (by decide),
   (handler_default_and_keyerror [("different", .null)] []).2 (by decide)⟩
